import Mathlib

/-!
Verification of the Qt ModelView contact/todo list adapters
(`src/ContactModel.h`, `src/ContactModel.cpp`, `src/models/ToDoModel.cpp`)
as a shallow embedding in Lean 4.

The embedding follows the C++ source directly:

* `Contact` mirrors `struct Contact { QString name, phone, email; }`.
* `QModelIndex` mirrors Qt's model index: a row, a column and whether the
  index is attached to a model; `isValid` is Qt's
  `row >= 0 && column >= 0 && model != nullptr`.
* a `QVariant` holding a string is `some s`; the invalid `QVariant()` is
  `none`.
* `ContactModel` holds the backing store `m_contacts : List Contact`.
* Mutating operations (`addContact`, `removeContact`, `clear`) return the
  new state together with an observable trace: the exact sequence of
  notifications emitted and of mutations applied to the backing
  `QVector`, in source order, each entry carrying the model state an
  observer would see at that point.
-/

/-- Mirrors `struct Contact` of `ContactModel.h`: three string fields. -/
structure Contact where
  name : String
  phone : String
  email : String
deriving Repr, DecidableEq

/-- Mirrors `QModelIndex`: a row, a column, and whether the index belongs to
a model (the default-constructed `QModelIndex()` does not). -/
structure QModelIndex where
  row : Int
  column : Int
  hasModel : Bool
deriving Repr, DecidableEq

namespace QModelIndex

/-- Qt's `QModelIndex::isValid()`: `row >= 0 && column >= 0 && model != nullptr`. -/
def isValid (i : QModelIndex) : Bool :=
  i.row ≥ 0 && i.column ≥ 0 && i.hasModel

/-- The default-constructed `QModelIndex()`: row `-1`, column `-1`, no model.
This is the "root" parent passed by list views. -/
def root : QModelIndex := ⟨-1, -1, false⟩

/-- An index addressing `row` of a list model, as produced by
`QAbstractListModel::index(row, 0)` via `createIndex`. -/
def atRow (row : Int) : QModelIndex := ⟨row, 0, true⟩

end QModelIndex

/-- A `QVariant` as returned by this model: either a string value or the
invalid `QVariant()` (the NoValue sentinel), written `none`. -/
abbrev QVariant := Option String

/-- Qt's `Qt::UserRole` (0x0100). -/
def QtUserRole : Int := 256

/-- The notifications a `QAbstractListModel` emits around mutations, plus the
model's own `countChanged` signal. -/
inductive Notif where
  | beginInsertRows (first last : Int)
  | endInsertRows
  | beginRemoveRows (first last : Int)
  | endRemoveRows
  | beginResetModel
  | endResetModel
  | countChanged
deriving Repr, DecidableEq

/-- One observable step of a mutating call: either a notification was
delivered, or the backing sequence was mutated. Each step records the model
state (`visible`) that any synchronous query issued at that point would
observe. -/
inductive TraceEntry (σ : Type) where
  | notify (n : Notif) (visible : σ)
  | mutate (visible : σ)
deriving Repr, DecidableEq

/-- The contact model state: the backing store `QVector<Contact> m_contacts`. -/
structure ContactModel where
  m_contacts : List Contact
deriving Repr, DecidableEq

namespace ContactModel

/-- Mirrors `enum Roles { NameRole = Qt::UserRole + 1, ... }`. -/
def NameRole : Int := QtUserRole + 1

/-- Mirrors `PhoneRole`, the successor of `NameRole` in `enum Roles`. -/
def PhoneRole : Int := NameRole + 1

/-- Mirrors `EmailRole`, the successor of `PhoneRole` in `enum Roles`. -/
def EmailRole : Int := PhoneRole + 1

/-- Mirrors `ContactModel::rowCount`: `0` for a valid parent (lists have no
children), otherwise `m_contacts.count()`. -/
def rowCount (m : ContactModel) (parent : QModelIndex) : Int :=
  if parent.isValid then 0
  else (m.m_contacts.length : Int)

/-- Mirrors `ContactModel::data`: invalid `QVariant()` when the index is
invalid or its row is past the end, otherwise the field of
`m_contacts.at(index.row())` selected by `role`; unknown roles yield
`QVariant()`. The `none` arm of the inner match is unreachable: the guard
ensures `index.row()` is in bounds. -/
def data (m : ContactModel) (index : QModelIndex) (role : Int) : QVariant :=
  if ¬ index.isValid ∨ index.row ≥ (m.m_contacts.length : Int) then none
  else
    match m.m_contacts[index.row.toNat]? with
    | none => none
    | some contact =>
      if role = NameRole then some contact.name
      else if role = PhoneRole then some contact.phone
      else if role = EmailRole then some contact.email
      else none

/-- The spec's `fieldValue(position, field)`: querying `data` through the
index addressing `position`, as the view does. -/
def fieldValue (m : ContactModel) (position : Int) (role : Int) : QVariant :=
  m.data (QModelIndex.atRow position) role

/-- Mirrors `ContactModel::roleNames`: the fixed role table, in the insertion
order of the source. The state argument reflects that this is a `const`
member; the body does not read it. -/
def roleNames (_ : ContactModel) : List (Int × String) :=
  [(NameRole, "name"), (PhoneRole, "phone"), (EmailRole, "email")]

/-- Mirrors `ContactModel::addContact`, source order preserved:
`beginInsertRows(QModelIndex(), newRow, newRow)` with
`newRow = m_contacts.count()`, then `m_contacts.append(newContact)`, then
`endInsertRows()`, then `emit countChanged()`. Returns the new state and the
observable trace. -/
def addContact (m : ContactModel) (name phone email : String) :
    ContactModel × List (TraceEntry ContactModel) :=
  let newRow : Int := (m.m_contacts.length : Int)
  let m' : ContactModel := ⟨m.m_contacts ++ [⟨name, phone, email⟩]⟩
  (m',
   [ .notify (.beginInsertRows newRow newRow) m,
     .mutate m',
     .notify .endInsertRows m',
     .notify .countChanged m' ])

/-- Mirrors `ContactModel::removeContact`: if `index < 0` or
`index >= m_contacts.count()` return with no effect and no notification;
otherwise `beginRemoveRows(QModelIndex(), index, index)`, then
`m_contacts.removeAt(index)`, then `endRemoveRows()`, then
`emit countChanged()`. -/
def removeContact (m : ContactModel) (index : Int) :
    ContactModel × List (TraceEntry ContactModel) :=
  if index < 0 ∨ index ≥ (m.m_contacts.length : Int) then (m, [])
  else
    let m' : ContactModel := ⟨m.m_contacts.eraseIdx index.toNat⟩
    (m',
     [ .notify (.beginRemoveRows index index) m,
       .mutate m',
       .notify .endRemoveRows m',
       .notify .countChanged m' ])

/-- Mirrors `ContactModel::clear`: early return when `m_contacts.isEmpty()`;
otherwise `beginResetModel()`, then `m_contacts.clear()`, then
`endResetModel()`, then `emit countChanged()`. -/
def clear (m : ContactModel) : ContactModel × List (TraceEntry ContactModel) :=
  if m.m_contacts.isEmpty then (m, [])
  else
    let m' : ContactModel := ⟨[]⟩
    (m',
     [ .notify .beginResetModel m,
       .mutate m',
       .notify .endResetModel m',
       .notify .countChanged m' ])

/-- The query `rowCount` presented in the same result-state-trace shape as
the mutating operations: a `const` method returns its value, leaves the
state as it was, and performs no observable step. -/
def rowCountOp (m : ContactModel) (parent : QModelIndex) :
    Int × ContactModel × List (TraceEntry ContactModel) :=
  (m.rowCount parent, m, [])

/-- The query `data` presented in the same result-state-trace shape as the
mutating operations. -/
def dataOp (m : ContactModel) (index : QModelIndex) (role : Int) :
    QVariant × ContactModel × List (TraceEntry ContactModel) :=
  (m.data index role, m, [])

end ContactModel

/-- A task record of the Todo adapter: a done flag and a description.
Modelled from the spec: the snapshot's `ToDoModel.h` declares no storage
member; the spec gives "a sequence of task records (done flag,
description)". -/
structure TaskRecord where
  done : Bool
  description : String
deriving Repr, DecidableEq

/-- The todo model state. Modelled from the spec: the backing sequence of
task records is not present in the snapshot's `ToDoModel.h`. -/
structure ToDoModel where
  m_tasks : List TaskRecord
deriving Repr, DecidableEq

namespace ToDoModel

/-- Mirrors `enum { DoneRole = Qt::UserRole, DescriptionRole }` of
`ToDoModel.h`. -/
def DoneRole : Int := QtUserRole

/-- Mirrors `DescriptionRole`, the successor of `DoneRole` in the enum. -/
def DescriptionRole : Int := DoneRole + 1

/-- Mirrors `ToDoModel::roleNames` of `src/models/ToDoModel.cpp`: the fixed
table mapping `DoneRole` to "done" and `DescriptionRole` to "description". -/
def roleNames (_ : ToDoModel) : List (Int × String) :=
  [(DoneRole, "done"), (DescriptionRole, "description")]

/-- Modelled from the spec: `ToDoModel.h` declares
`int rowCount(const QModelIndex &parent) const override` but its definition
is absent from the snapshot. Per the spec, the length query "is available
and returns the current Sequence size"; like every list model it answers 0
for a valid (non-root) parent. -/
def rowCount (m : ToDoModel) (parent : QModelIndex) : Int :=
  if parent.isValid then 0
  else (m.m_tasks.length : Int)

end ToDoModel

/-! ## Helper lemmas -/

/-- An index produced for a natural row is valid. -/
theorem isValid_atRow (p : Nat) : (QModelIndex.atRow (p : Int)).isValid = true := by
  simp [QModelIndex.atRow, QModelIndex.isValid]

/-- Evaluation of `fieldValue` at an in-range natural position: the guard
passes and the record stored there is consulted. -/
theorem fieldValue_get (m : ContactModel) (p : Nat) (c : Contact)
    (hc : m.m_contacts[p]? = some c) (role : Int) :
    m.fieldValue (p : Int) role =
      if role = ContactModel.NameRole then some c.name
      else if role = ContactModel.PhoneRole then some c.phone
      else if role = ContactModel.EmailRole then some c.email
      else none := by
  have hlt : p < m.m_contacts.length := by
    rcases List.getElem?_eq_some.mp hc with ⟨h, _⟩
    exact h
  unfold ContactModel.fieldValue ContactModel.data
  rw [if_neg]
  · simp [QModelIndex.atRow, hc]
  · push_neg
    refine ⟨isValid_atRow p, ?_⟩
    simpa [QModelIndex.atRow] using Int.ofNat_lt.mpr hlt

/-! ## Claim theorems -/

/-- C1: appending a record via `addContact` increases `length()` by exactly 1,
`fieldValue(length-1, f)` afterwards returns the new record's value for each
declared field, and every previously stored record is unchanged at its
position. -/
theorem addContact_append_spec (m : ContactModel) (name phone email : String) :
    (m.addContact name phone email).1.m_contacts.length = m.m_contacts.length + 1 ∧
    (m.addContact name phone email).1.fieldValue
      (((m.addContact name phone email).1.m_contacts.length : Int) - 1)
      ContactModel.NameRole = some name ∧
    (m.addContact name phone email).1.fieldValue
      (((m.addContact name phone email).1.m_contacts.length : Int) - 1)
      ContactModel.PhoneRole = some phone ∧
    (m.addContact name phone email).1.fieldValue
      (((m.addContact name phone email).1.m_contacts.length : Int) - 1)
      ContactModel.EmailRole = some email ∧
    ∀ j : Nat, j < m.m_contacts.length →
      (m.addContact name phone email).1.m_contacts[j]? = m.m_contacts[j]? := by
  have hst : (m.addContact name phone email).1
      = ⟨m.m_contacts ++ [⟨name, phone, email⟩]⟩ := rfl
  have hlen : (m.addContact name phone email).1.m_contacts.length
      = m.m_contacts.length + 1 := by
    rw [hst]; simp
  have hpos : (((m.addContact name phone email).1.m_contacts.length : Int) - 1)
      = ((m.m_contacts.length : Nat) : Int) := by
    rw [hlen]; push_cast; ring
  have hget : (m.addContact name phone email).1.m_contacts[m.m_contacts.length]?
      = some ⟨name, phone, email⟩ := by
    rw [hst]; exact List.getElem?_concat_length _ _
  refine ⟨hlen, ?_, ?_, ?_, ?_⟩
  · rw [hpos, fieldValue_get _ _ _ hget]
    simp
  · rw [hpos, fieldValue_get _ _ _ hget]
    simp [ContactModel.NameRole, ContactModel.PhoneRole, QtUserRole]
  · rw [hpos, fieldValue_get _ _ _ hget]
    simp [ContactModel.NameRole, ContactModel.PhoneRole, ContactModel.EmailRole,
      QtUserRole]
  · intro j hj
    rw [hst]
    exact List.getElem?_append_left hj

/-- C1 witness: instantiated on a one-element model. -/
theorem addContact_append_spec_witness :
    0 < (ContactModel.mk [⟨"Bob", "1", "b"⟩]).m_contacts.length ∧
    ((ContactModel.mk [⟨"Bob", "1", "b"⟩]).addContact "Alice" "555-1234"
        "alice@example.com").1.m_contacts[0]?
      = (ContactModel.mk [⟨"Bob", "1", "b"⟩]).m_contacts[0]? :=
  ⟨by decide,
   (addContact_append_spec ⟨[⟨"Bob", "1", "b"⟩]⟩ "Alice" "555-1234"
      "alice@example.com").2.2.2.2 0 (by decide)⟩

/-- C2: a single `addContact` call produces exactly the trace
begin-insert(N, N) → Sequence mutation → end-insert → count-changed, where
`N` is the pre-mutation length; the state visible at the begin notification
is the pre-mutation state, and the state visible from the mutation onwards
(including at end-insert and count-changed) is exactly the final state. -/
theorem addContact_notification_order (m : ContactModel) (name phone email : String) :
    (m.addContact name phone email).2 =
      [ TraceEntry.notify
          (Notif.beginInsertRows (m.m_contacts.length : Int) (m.m_contacts.length : Int)) m,
        TraceEntry.mutate (m.addContact name phone email).1,
        TraceEntry.notify Notif.endInsertRows (m.addContact name phone email).1,
        TraceEntry.notify Notif.countChanged (m.addContact name phone email).1 ] ∧
    (m.addContact name phone email).1.m_contacts = m.m_contacts ++ [⟨name, phone, email⟩] :=
  ⟨rfl, rfl⟩

/-- C3: `removeContact` at an in-range position shrinks the sequence by one,
leaves every record before the position unchanged, and shifts every record
after it down by one position. -/
theorem removeContact_shift_spec (m : ContactModel) (i : Nat)
    (h : i < m.m_contacts.length) :
    (m.removeContact (i : Int)).1.m_contacts.length = m.m_contacts.length - 1 ∧
    (∀ j : Nat, j < i →
      (m.removeContact (i : Int)).1.m_contacts[j]? = m.m_contacts[j]?) ∧
    (∀ j : Nat, i ≤ j →
      (m.removeContact (i : Int)).1.m_contacts[j]? = m.m_contacts[j + 1]?) := by
  have hst : (m.removeContact (i : Int)).1 = ⟨m.m_contacts.eraseIdx i⟩ := by
    unfold ContactModel.removeContact
    rw [if_neg]
    · simp
    · push_neg
      refine ⟨Int.ofNat_nonneg i, ?_⟩
      exact_mod_cast h
  refine ⟨?_, ?_, ?_⟩
  · rw [hst]
    exact List.length_eraseIdx_of_lt h
  · intro j hj
    rw [hst]
    exact List.getElem?_eraseIdx_of_lt _ _ _ hj
  · intro j hj
    rw [hst]
    exact List.getElem?_eraseIdx_of_ge _ _ _ hj

/-- C3 witness: removing position 0 from a two-element model. -/
theorem removeContact_shift_spec_witness :
    0 ≤ (0 : Nat) ∧
    ((ContactModel.mk [⟨"Alice", "1", "a"⟩, ⟨"Bob", "2", "b"⟩]).removeContact
        ((0 : Nat) : Int)).1.m_contacts[0]?
      = (ContactModel.mk [⟨"Alice", "1", "a"⟩, ⟨"Bob", "2", "b"⟩]).m_contacts[0 + 1]? :=
  ⟨le_refl 0,
   (removeContact_shift_spec ⟨[⟨"Alice", "1", "a"⟩, ⟨"Bob", "2", "b"⟩]⟩ 0
      (by decide)).2.2 0 (le_refl 0)⟩

/-- C4: `removeContact` with a position outside `[0, length)` is a silent
no-op: the state is unchanged and the emitted trace is empty. -/
theorem removeContact_out_of_range_noop (m : ContactModel) (i : Int)
    (h : i < 0 ∨ i ≥ (m.m_contacts.length : Int)) :
    m.removeContact i = (m, []) := by
  unfold ContactModel.removeContact
  rw [if_pos h]

/-- C4 witness: removing position 7 from a one-element model. -/
theorem removeContact_out_of_range_noop_witness :
    ((7 : Int) < 0 ∨ (7 : Int) ≥ ((ContactModel.mk [⟨"Alice", "1", "a"⟩]).m_contacts.length : Int)) ∧
    (ContactModel.mk [⟨"Alice", "1", "a"⟩]).removeContact 7
      = (ContactModel.mk [⟨"Alice", "1", "a"⟩], []) :=
  ⟨by decide,
   removeContact_out_of_range_noop ⟨[⟨"Alice", "1", "a"⟩]⟩ 7 (by decide)⟩

/-- C5: `fieldValue` soft-fails with the NoValue sentinel: any position
outside `[0, length)` yields `none` for every field, and any role outside
the declared FieldIds yields `none` at every position; the function is
total, so no query can crash. -/
theorem data_soft_fail (m : ContactModel) (p : Int) (role : Int) :
    ((p < 0 ∨ p ≥ (m.m_contacts.length : Int)) → m.fieldValue p role = none) ∧
    ((role ≠ ContactModel.NameRole ∧ role ≠ ContactModel.PhoneRole ∧
        role ≠ ContactModel.EmailRole) → m.fieldValue p role = none) := by
  constructor
  · intro h
    unfold ContactModel.fieldValue ContactModel.data
    rw [if_pos]
    rcases h with h | h
    · left
      simp [QModelIndex.isValid, QModelIndex.atRow]
      omega
    · right
      simpa [QModelIndex.atRow] using h
  · rintro ⟨h1, h2, h3⟩
    unfold ContactModel.fieldValue ContactModel.data
    split
    · rfl
    · split
      · rfl
      · simp [h1, h2, h3]

/-- C5 witness: querying position 5 of a one-element model, and a valid
position with an undeclared role. -/
theorem data_soft_fail_witness :
    ((5 : Int) < 0 ∨ (5 : Int) ≥ ((ContactModel.mk [⟨"Alice", "1", "a"⟩]).m_contacts.length : Int)) ∧
    (ContactModel.mk [⟨"Alice", "1", "a"⟩]).fieldValue 5 ContactModel.NameRole = none ∧
    ((0 : Int) ≠ ContactModel.NameRole ∧ (0 : Int) ≠ ContactModel.PhoneRole ∧
      (0 : Int) ≠ ContactModel.EmailRole) ∧
    (ContactModel.mk [⟨"Alice", "1", "a"⟩]).fieldValue 0 0 = none :=
  ⟨by decide,
   (data_soft_fail ⟨[⟨"Alice", "1", "a"⟩]⟩ 5 ContactModel.NameRole).1 (by decide),
   by decide,
   (data_soft_fail ⟨[⟨"Alice", "1", "a"⟩]⟩ 0 0).2 (by decide)⟩

/-- C6: `clear` on a non-empty model empties the sequence and emits exactly
begin-reset (seeing the pre-state) → mutation → end-reset → count-changed;
`clear` on an empty model is a no-op with an empty trace; hence the second
of two consecutive `clear` calls observably does nothing. -/
theorem clear_spec (m : ContactModel) :
    (m.m_contacts ≠ [] →
      m.clear = (⟨[]⟩,
        [ TraceEntry.notify Notif.beginResetModel m,
          TraceEntry.mutate ⟨[]⟩,
          TraceEntry.notify Notif.endResetModel ⟨[]⟩,
          TraceEntry.notify Notif.countChanged ⟨[]⟩ ])) ∧
    (m.m_contacts = [] → m.clear = (m, [])) ∧
    m.clear.1.clear = (m.clear.1, []) := by
  have key : ∀ x : ContactModel, x.m_contacts = [] → x.clear = (x, []) := by
    intro x hx
    unfold ContactModel.clear
    simp [hx]
  have hempty : m.clear.1.m_contacts = [] := by
    unfold ContactModel.clear
    split
    · next hc => exact List.isEmpty_iff.mp hc
    · rfl
  refine ⟨?_, key m, key _ hempty⟩
  intro h
  unfold ContactModel.clear
  rw [if_neg]
  simp [h]

/-- C6 witness: clearing a one-element model, then an empty one. -/
theorem clear_spec_witness :
    (ContactModel.mk [⟨"Alice", "1", "a"⟩]).m_contacts ≠ [] ∧
    (ContactModel.mk [⟨"Alice", "1", "a"⟩]).clear
      = (⟨[]⟩,
         [ TraceEntry.notify Notif.beginResetModel (ContactModel.mk [⟨"Alice", "1", "a"⟩]),
           TraceEntry.mutate ⟨[]⟩,
           TraceEntry.notify Notif.endResetModel ⟨[]⟩,
           TraceEntry.notify Notif.countChanged ⟨[]⟩ ]) ∧
    ContactModel.clear ⟨[]⟩ = (⟨[]⟩, []) :=
  ⟨by decide,
   (clear_spec ⟨[⟨"Alice", "1", "a"⟩]⟩).1 (by decide),
   (clear_spec ⟨[]⟩).2.1 rfl⟩

/-- C7: the queries `rowCount` and `data` are side-effect-free: viewed as
operations they return their value, leave the model state exactly as it
was, and emit an empty trace. -/
theorem queries_side_effect_free (m : ContactModel) (parent index : QModelIndex)
    (role : Int) :
    m.rowCountOp parent = (m.rowCount parent, m, []) ∧
    m.dataOp index role = (m.data index role, m, []) :=
  ⟨rfl, rfl⟩

/-- C8: `roleNames` of the contact model returns the same fixed table on
every call and in every state: exactly NameRole to "name", PhoneRole to
"phone", EmailRole to "email". -/
theorem contact_roleNames_fixed (m m' : ContactModel) :
    m.roleNames = [(ContactModel.NameRole, "name"), (ContactModel.PhoneRole, "phone"),
      (ContactModel.EmailRole, "email")] ∧
    m.roleNames = m'.roleNames :=
  ⟨rfl, rfl⟩

/-- C9: the todo model's `roleNames` returns exactly DoneRole to "done" and
DescriptionRole to "description", and its `rowCount` at the root index
returns the current sequence size. -/
theorem todo_schema_and_length (m : ToDoModel) :
    m.roleNames = [(ToDoModel.DoneRole, "done"),
      (ToDoModel.DescriptionRole, "description")] ∧
    m.rowCount QModelIndex.root = (m.m_tasks.length : Int) :=
  ⟨rfl, rfl⟩

/-- C10: `rowCount` answers 0 for any valid (non-root) parent index,
whatever the model holds. -/
theorem rowCount_valid_parent_zero (m : ContactModel) (parent : QModelIndex)
    (h : parent.isValid = true) : m.rowCount parent = 0 := by
  unfold ContactModel.rowCount
  rw [if_pos h]

/-- C10 witness: a two-element model still answers 0 under a valid parent. -/
theorem rowCount_valid_parent_zero_witness :
    (QModelIndex.atRow 0).isValid = true ∧
    (ContactModel.mk [⟨"Alice", "1", "a"⟩, ⟨"Bob", "2", "b"⟩]).rowCount
      (QModelIndex.atRow 0) = 0 :=
  ⟨by decide, rowCount_valid_parent_zero _ _ (by decide)⟩
